import Mathlib

/-!
Shallow embedding of the LunarCrush MCP SDK session adapter
(`src/index.ts`, class `LunarCrushMCP`).

JavaScript/TypeScript effects are made explicit:
* the session object's private fields become a Lean structure;
* each network interaction (handshake, tool-list fetch, tool invocation)
  is an `Except String _` oracle passed as an argument;
* thrown errors become an `MCPError` sum type mirroring the messages the
  code builds;
* dynamic (`any`-typed) JSON data is a `JsonValue` tree, with JavaScript
  truthiness modelled by `jsTruthy`.
Methods return their result (an `Except`) together with the successor
state, and a `Bool` flag records whether a network call was attempted
where a claim needs it.
-/

/-- A JSON value, used for tool input schemas, call arguments and results
(the TypeScript code types these as `any`). -/
inductive JsonValue where
  | null
  | bool (b : Bool)
  | num (n : Int)
  | str (s : String)
  | arr (items : List JsonValue)
  | obj (fields : List (String × JsonValue))

/-- The platform `String.prototype.trim`: drops leading and trailing
whitespace. Modelled directly on the character list so that it evaluates
in the kernel. -/
def jsTrim (s : String) : String :=
  ⟨((s.data.dropWhile Char.isWhitespace).reverse.dropWhile
      Char.isWhitespace).reverse⟩

/-- `interface MCPTool` from the source: name, optional description,
optional input schema. -/
structure MCPTool where
  name : String
  description : Option String
  inputSchema : Option JsonValue

/-- A tool-call result is an opaque JSON payload passed through verbatim
(`MCPToolResult` is structurally dynamic in the source). -/
abbrev MCPToolResult := JsonValue

/-- The errors the adapter can throw, one constructor per `throw` site,
carrying the data the source interpolates into the message. -/
inductive MCPError where
  | invalidCredential
  | connectionError (cause : String)
  | notInitialized
  | toolListError (cause : String)
  | notConnected
  | unknownTool (name : String) (available : List String)
  | argumentParseError
  | toolInvocation (cause : String)

/-- The `error.message` string each throw site builds. -/
def MCPError.message : MCPError → String
  | .invalidCredential =>
      "LunarCrush API key is required. Get one at https://lunarcrush.com/developers/api"
  | .connectionError c => "Failed to connect to LunarCrush MCP: " ++ c
  | .notInitialized => "MCP client not initialized"
  | .toolListError c => "Failed to refresh tools: " ++ c
  | .notConnected => "Not connected to LunarCrush MCP. Call connect() first."
  | .unknownTool n avail =>
      "Tool \x27" ++ n ++ "\x27 not found. Available tools: " ++
        String.intercalate ", " avail
  | .argumentParseError => "Unexpected token in JSON"
  | .toolInvocation c => c

/-- The private fields of `class LunarCrushMCP`. The `client` and
`transport` handles are modelled by whether they are non-null. -/
structure LunarCrushMCP where
  apiKey : String
  client : Bool
  transport : Bool
  connected : Bool
  tools : List MCPTool

namespace LunarCrushMCP

/-- The constructor: rejects a missing (`undefined`/`null`) or
whitespace-only key via `if (!apiKey?.trim())`, otherwise stores the
trimmed key with all handles null, disconnected, empty cache. -/
def construct (apiKey : Option String) : Except MCPError LunarCrushMCP :=
  match apiKey with
  | none => .error .invalidCredential
  | some k =>
      if jsTrim k = "" then .error .invalidCredential
      else .ok { apiKey := jsTrim k, client := false, transport := false,
                 connected := false, tools := [] }

/-- `isConnected()`: `this.connected && this.client !== null`. -/
def isConnected (st : LunarCrushMCP) : Bool :=
  st.connected && st.client

/-- `refreshTools()`: guarded by `if (!this.client)`; on a successful
fetch the cache is replaced wholesale with the mapped list; on a fetch
failure a `ToolListError` is thrown and the state is untouched. -/
def refreshTools (st : LunarCrushMCP) (fetch : Except String (List MCPTool)) :
    Except MCPError (List MCPTool) × LunarCrushMCP :=
  if st.client = false then (.error .notInitialized, st)
  else
    match fetch with
    | .ok ts =>
        let mapped := ts.map fun t =>
          { name := t.name, description := t.description,
            inputSchema := t.inputSchema : MCPTool }
        (.ok mapped, { st with tools := mapped })
    | .error e => (.error (.toolListError e), st)

/-- `connect()`: assigns the transport and client handles, awaits the
handshake, performs the initial `refreshTools()`, and only then sets
`this.connected = true`; any failure is rethrown as a `ConnectionError`
wrapping the underlying message. `setup` models the transport/URL
construction, `handshake` models `client.connect`, `fetch` models the
`listTools` round trip inside `refreshTools`. -/
def connect (st : LunarCrushMCP) (setup : Except String Unit)
    (handshake : Except String Unit) (fetch : Except String (List MCPTool)) :
    Except MCPError Unit × LunarCrushMCP :=
  match setup with
  | .error e => (.error (.connectionError e), st)
  | .ok _ =>
      let st1 : LunarCrushMCP := { st with transport := true, client := true }
      match handshake with
      | .error e => (.error (.connectionError e), st1)
      | .ok _ =>
          match refreshTools st1 fetch with
          | (.error e, st2) => (.error (.connectionError e.message), st2)
          | (.ok _, st2) => (.ok (), { st2 with connected := true })

/-- `disconnect()`: closes the client if present, swallowing any
close-time error, then nulls both handles, clears the connected flag and
empties the tool cache. Never throws. -/
def disconnect (st : LunarCrushMCP) (close : Except String Unit) :
    Except MCPError Unit × LunarCrushMCP :=
  let st1 :=
    if st.client then
      match close with
      | .ok _ => { st with client := false }
      | .error _ => { st with client := false }
    else st
  (.ok (), { st1 with transport := false, connected := false, tools := [] })

/-- `ensureConnected()` as a predicate: throws unless
`this.connected && this.client`. -/
def ensureConnected (st : LunarCrushMCP) : Except MCPError Unit :=
  if st.connected = false ∨ st.client = false then .error .notConnected
  else .ok ()

/-- `getTools()`: requires connected state, returns a copy of the cache
(value semantics make the defensive copy implicit). -/
def getTools (st : LunarCrushMCP) : Except MCPError (List MCPTool) :=
  match ensureConnected st with
  | .error e => .error e
  | .ok _ => .ok st.tools

/-- `getTool(name)`: requires connected state; linear first-match lookup
by exact name, `null` (here `none`) when absent. -/
def getTool (st : LunarCrushMCP) (name : String) :
    Except MCPError (Option MCPTool) :=
  match ensureConnected st with
  | .error e => .error e
  | .ok _ => .ok (st.tools.find? fun t => t.name = name)

/-- `callTool(name, args)`: connected-state guard, then the explicit
unknown-tool guard enumerating the cached names, then the forwarded
network invocation (`net`), whose failure is rethrown verbatim. The
second component records whether the network call was attempted. -/
def callTool (st : LunarCrushMCP) (name : String) (args : JsonValue)
    (net : JsonValue → Except String MCPToolResult) :
    Except MCPError MCPToolResult × Bool :=
  match ensureConnected st with
  | .error e => (.error e, false)
  | .ok _ =>
      match st.tools.find? fun t => t.name = name with
      | none => (.error (.unknownTool name (st.tools.map fun t => t.name)), false)
      | some _ =>
          match net args with
          | .ok r => (.ok r, true)
          | .error e => (.error (.toolInvocation e), true)

/-- The argument of `executeFunction`: either a serialized JSON string or
an already-parsed mapping. -/
inductive FunctionArgs where
  | str (s : String)
  | obj (v : JsonValue)

/-- `executeFunction(name, functionArgs)`: when given a string, runs the
platform JSON parser (`parse`, an explicit parameter standing for
`JSON.parse`) first — a parse failure throws before anything else — and
then delegates to `callTool`. -/
def executeFunction (parse : String → Option JsonValue)
    (st : LunarCrushMCP) (name : String) (fa : FunctionArgs)
    (net : JsonValue → Except String MCPToolResult) :
    Except MCPError MCPToolResult × Bool :=
  match fa with
  | .str s =>
      match parse s with
      | none => (.error .argumentParseError, false)
      | some v => callTool st name v net
  | .obj v => callTool st name v net

/-- One entry of a `callTools` batch: `{ name, args? }`. -/
structure BatchCall where
  name : String
  args : Option JsonValue

/-- One record of a `callTools` result: fulfilled promises become
`{tool, result}`, rejected ones `{tool, error}`. -/
inductive BatchRecord where
  | success (tool : String) (result : MCPToolResult)
  | failure (tool : String) (error : String)

/-- The `tool` field present in both record shapes. -/
def BatchRecord.tool : BatchRecord → String
  | .success t _ => t
  | .failure t _ => t

/-- How `Promise.allSettled` settles one batch entry: the inner
`callTool(call.name, call.args || {})` either fulfills to
`{tool, result}` or rejects, in which case the mapping step produces
`{tool, error: reason.message || \x27Unknown error\x27}`. -/
def settleCall (st : LunarCrushMCP) (c : BatchCall)
    (net : JsonValue → Except String MCPToolResult) : BatchRecord :=
  match (callTool st c.name (c.args.getD (.obj [])) net).1 with
  | .ok r => .success c.name r
  | .error e =>
      .failure c.name (if e.message = "" then "Unknown error" else e.message)

/-- `callTools(calls)`: connected-state guard, then every entry is
dispatched and settled independently; `net i` is the network outcome of
the i-th entry. The result preserves the input order positionally. -/
def callTools (st : LunarCrushMCP) (calls : List BatchCall)
    (net : Nat → JsonValue → Except String MCPToolResult) :
    Except MCPError (List BatchRecord) :=
  match ensureConnected st with
  | .error e => .error e
  | .ok _ => .ok (calls.enum.map fun p => settleCall st p.2 (net p.1))

/-- The session states reachable through the public lifecycle: a
successful construction, followed by any sequence of `connect`,
`refreshTools` and `disconnect` calls under arbitrary network outcomes
(the remaining public operations do not modify the state). -/
inductive Reachable : LunarCrushMCP → Prop where
  | init (key : Option String) (st : LunarCrushMCP)
      (h : construct key = .ok st) : Reachable st
  | connectStep (st : LunarCrushMCP) (setup handshake : Except String Unit)
      (fetch : Except String (List MCPTool)) (h : Reachable st) :
      Reachable (connect st setup handshake fetch).2
  | refreshStep (st : LunarCrushMCP) (fetch : Except String (List MCPTool))
      (h : Reachable st) : Reachable (refreshTools st fetch).2
  | disconnectStep (st : LunarCrushMCP) (close : Except String Unit)
      (h : Reachable st) : Reachable (disconnect st close).2

end LunarCrushMCP

section Fixtures

open LunarCrushMCP

/-- A concrete tool descriptor used to instantiate theorems. -/
def sampleTool : MCPTool :=
  { name := "Topic", description := some "Get social data for a topic",
    inputSchema := none }

/-- A freshly constructed session for the key `"key"`. -/
def freshState : LunarCrushMCP :=
  { apiKey := "key", client := false, transport := false,
    connected := false, tools := [] }

/-- A connected session caching the single tool `"Topic"`. -/
def sampleState : LunarCrushMCP :=
  { apiKey := "key", client := true, transport := true,
    connected := true, tools := [sampleTool] }

/-- A network oracle that fails every invocation. -/
def noNet : JsonValue → Except String MCPToolResult :=
  fun _ => .error "network unreachable"

/-- A network oracle that answers every invocation. -/
def okNet : JsonValue → Except String MCPToolResult :=
  fun _ => .ok (.str "data")

/-- A concrete stand-in for the platform JSON parser, accepting exactly
the text of the empty object. -/
def sampleParse : String → Option JsonValue :=
  fun s => if s = "\x7b\x7d" then some (.obj []) else none

end Fixtures

open LunarCrushMCP

/-- C8: construction with a missing or whitespace-only credential fails
with `InvalidCredential`; with any other credential it succeeds and
stores the trimmed credential, with both handles null, the connected
flag false and an empty tool cache (construction is a pure function of
the credential: no network activity). -/
theorem construct_spec :
    construct none = .error .invalidCredential ∧
    (∀ k : String, jsTrim k = "" →
      construct (some k) = .error .invalidCredential) ∧
    (∀ k : String, jsTrim k ≠ "" →
      construct (some k) =
        .ok { apiKey := jsTrim k, client := false, transport := false,
              connected := false, tools := [] }) := by
  refine ⟨rfl, fun k h => ?_, fun k h => ?_⟩ <;> simp [construct, h]

/-- Witness for C8 at the credentials `"   "` and `" key "`. -/
theorem construct_spec_witness :
    (jsTrim "   " = "" ∧ construct (some "   ") = .error .invalidCredential) ∧
    (jsTrim " key " ≠ "" ∧
      construct (some " key ") =
        .ok { apiKey := jsTrim " key ", client := false, transport := false,
              connected := false, tools := [] }) :=
  ⟨⟨by decide, construct_spec.2.1 "   " (by decide)⟩,
   ⟨by decide, construct_spec.2.2 " key " (by decide)⟩⟩

/-- C2: `refreshTools` fails with `NotInitialized` when the client handle
is null, leaving the state unchanged; with a client handle, a successful
fetch replaces the cached tool sequence wholesale and returns the new
cache, while a failed fetch fails with `ToolListError` and leaves the
state — in particular the previous cache — exactly unchanged. -/
theorem refreshTools_spec (st : LunarCrushMCP)
    (fetch : Except String (List MCPTool)) :
    (st.client = false → refreshTools st fetch = (.error .notInitialized, st)) ∧
    (st.client = true →
      (∀ ts, fetch = .ok ts →
        refreshTools st fetch = (.ok ts, { st with tools := ts })) ∧
      (∀ e, fetch = .error e →
        refreshTools st fetch = (.error (.toolListError e), st))) := by
  refine ⟨fun h => ?_, fun h => ⟨fun ts hts => ?_, fun e he => ?_⟩⟩
  · simp [refreshTools, h]
  · have hmap : (fun t : MCPTool =>
        ({ name := t.name, description := t.description,
           inputSchema := t.inputSchema } : MCPTool)) = fun t => t := rfl
    simp [refreshTools, h, hts, hmap]
  · simp [refreshTools, h, he]

/-- Witness for C2 at a connected session: a successful fetch replaces
the cache, a failed fetch leaves it at `[sampleTool]`. -/
theorem refreshTools_spec_witness :
    (sampleState.client = true ∧
      refreshTools sampleState (.ok []) = (.ok [], { sampleState with tools := [] })) ∧
    (refreshTools sampleState (.error "boom") =
      (.error (.toolListError "boom"), sampleState)) :=
  ⟨⟨rfl, (refreshTools_spec sampleState (.ok [])).2 rfl |>.1 [] rfl⟩,
   (refreshTools_spec sampleState (.error "boom")).2 rfl |>.2 "boom" rfl⟩

/-- C7: `disconnect` never throws whatever the close outcome, and leaves
the connected flag false, the tool cache empty and `isConnected` false;
a second `disconnect` also does not throw and returns the identical
result (idempotence on session state). -/
theorem disconnect_spec (st : LunarCrushMCP) (close close2 : Except String Unit) :
    (disconnect st close).1 = .ok () ∧
    (disconnect st close).2.connected = false ∧
    (disconnect st close).2.tools = [] ∧
    isConnected (disconnect st close).2 = false ∧
    disconnect (disconnect st close).2 close2 = disconnect st close := by
  obtain ⟨a, c, t, co, ts⟩ := st
  cases c <;> cases close <;> cases close2 <;>
    simp [disconnect, isConnected]

/-- C3: on a connected session, `callTool` with a name absent from the
cached tool sequence fails with `UnknownTool` carrying the full list of
cached tool names (the enumeration interpolated into its message), and
the attempted-network-call flag is `false`: the lookup guard runs before
any forwarding to the endpoint. -/
theorem callTool_unknown_guard (st : LunarCrushMCP) (name : String)
    (args : JsonValue) (net : JsonValue → Except String MCPToolResult)
    (hconn : isConnected st = true)
    (habs : name ∉ st.tools.map fun t => t.name) :
    callTool st name args net =
      (.error (.unknownTool name (st.tools.map fun t => t.name)), false) := by
  have hco : st.connected = true := by
    have := hconn
    unfold isConnected at this
    exact (Bool.and_eq_true _ _).mp this |>.1
  have hcl : st.client = true := by
    have := hconn
    unfold isConnected at this
    exact (Bool.and_eq_true _ _).mp this |>.2
  have hfind : (st.tools.find? fun t => t.name = name) = none := by
    rw [List.find?_eq_none]
    intro t ht
    simp only [decide_eq_true_eq]
    intro hn
    exact habs (List.mem_map.mpr ⟨t, ht, hn⟩)
  simp [callTool, ensureConnected, hco, hcl, hfind]

/-- Witness for C3: the connected sample session caches only `"Topic"`,
so calling `"Nope"` fails with `UnknownTool` listing `["Topic"]` without
touching the network. -/
theorem callTool_unknown_guard_witness :
    isConnected sampleState = true ∧
    "Nope" ∉ sampleState.tools.map (fun t => t.name) ∧
    callTool sampleState "Nope" (.obj []) noNet =
      (.error (.unknownTool "Nope" (sampleState.tools.map fun t => t.name)),
       false) :=
  ⟨rfl, by simp [sampleState, sampleTool],
   callTool_unknown_guard sampleState "Nope" (.obj []) noNet rfl
     (by simp [sampleState, sampleTool])⟩

/-- C1 counterexample: on a session that is already connected, a second
`connect()` whose handshake fails raises a `ConnectionError` but leaves
the connected flag `true` (the code never resets it on failure), so
`isConnected()` stays `true` — the claim that the flag "remains false"
after a failed connect does not hold for every session. -/
theorem connect_failure_on_connected_session :
    ((connect (connect freshState (.ok ()) (.ok ()) (.ok [sampleTool])).2
        (.ok ()) (.error "network down") (.ok [])).1 =
      .error (.connectionError "network down")) ∧
    ((connect (connect freshState (.ok ()) (.ok ()) (.ok [sampleTool])).2
        (.ok ()) (.error "network down") (.ok [])).2.connected = true) ∧
    (isConnected (connect (connect freshState (.ok ()) (.ok ()) (.ok [sampleTool])).2
        (.ok ()) (.error "network down") (.ok [])).2 = true) :=
  ⟨rfl, rfl, rfl⟩

/-- C1 (amended): `connect` succeeds — and only then sets the connected
flag to true — exactly when transport setup, the handshake and the
initial tool-list fetch all succeed; on any failure it raises a
`ConnectionError` wrapping the cause and leaves the connected flag with
the value it had before the call, so a session that was disconnected
before the call still reports `isConnected() = false`. -/
theorem connect_spec (st : LunarCrushMCP) (setup handshake : Except String Unit)
    (fetch : Except String (List MCPTool)) :
    ((connect st setup handshake fetch).1 = .ok () →
      setup = .ok () ∧ handshake = .ok () ∧ (∃ ts, fetch = .ok ts) ∧
      (connect st setup handshake fetch).2.connected = true) ∧
    (∀ e, (connect st setup handshake fetch).1 = .error e →
      (∃ c, e = .connectionError c) ∧
      (connect st setup handshake fetch).2.connected = st.connected ∧
      (st.connected = false →
        isConnected (connect st setup handshake fetch).2 = false)) := by
  cases setup with
  | error es =>
      refine ⟨fun h => by simp [connect] at h, fun e he => ?_⟩
      simp only [connect] at he ⊢
      refine ⟨⟨es, by simpa using he.symm⟩, by trivial, fun hco => ?_⟩
      simp [isConnected, hco]
  | ok u =>
      cases handshake with
      | error eh =>
          refine ⟨fun h => by simp [connect] at h, fun e he => ?_⟩
          simp only [connect] at he ⊢
          refine ⟨⟨eh, by simpa using he.symm⟩, by trivial, fun hco => ?_⟩
          simp [isConnected, hco]
      | ok v =>
          cases fetch with
          | ok ts =>
              refine ⟨fun h => ⟨rfl, rfl, ⟨ts, rfl⟩, ?_⟩, fun e he => ?_⟩
              · simp [connect, refreshTools]
              · exfalso
                simp [connect, refreshTools] at he
          | error ef =>
              refine ⟨fun h => ?_, fun e he => ?_⟩
              · exfalso
                simp [connect, refreshTools] at h
              · simp only [connect, refreshTools] at he ⊢
                refine ⟨⟨(MCPError.toolListError ef).message, by simpa using he.symm⟩,
                  by trivial, fun hco => ?_⟩
                simp [isConnected, hco]

/-- Witness for C1: a successful connect on a fresh session turns the
flag on; a handshake failure on a fresh session raises `ConnectionError`
and leaves it disconnected. -/
theorem connect_spec_witness :
    ((.ok () : Except String Unit) = .ok () ∧ (.ok () : Except String Unit) = .ok () ∧
      (∃ ts, (.ok [sampleTool] : Except String (List MCPTool)) = .ok ts) ∧
      (connect freshState (.ok ()) (.ok ()) (.ok [sampleTool])).2.connected = true) ∧
    ((∃ c, MCPError.connectionError "boom" = .connectionError c) ∧
      (connect freshState (.ok ()) (.error "boom") (.ok [])).2.connected =
        freshState.connected ∧
      (freshState.connected = false →
        isConnected (connect freshState (.ok ()) (.error "boom") (.ok [])).2 = false)) :=
  ⟨(connect_spec freshState (.ok ()) (.ok ()) (.ok [sampleTool])).1 rfl,
   (connect_spec freshState (.ok ()) (.error "boom") (.ok [])).2
     (.connectionError "boom") rfl⟩

/-- C5: `executeFunction` with a pre-parsed mapping behaves exactly like
`callTool` on that mapping (same result and same network behaviour); with
a string that the JSON parser accepts it behaves exactly like `callTool`
on the parsed value; and with a string the parser rejects it fails with
`ArgumentParseError` (and attempts no network call). -/
theorem executeFunction_spec (parse : String → Option JsonValue)
    (st : LunarCrushMCP) (name : String)
    (net : JsonValue → Except String MCPToolResult) :
    (∀ v, executeFunction parse st name (.obj v) net = callTool st name v net) ∧
    (∀ s v, parse s = some v →
      executeFunction parse st name (.str s) net = callTool st name v net) ∧
    (∀ s, parse s = none →
      executeFunction parse st name (.str s) net =
        (.error .argumentParseError, false)) := by
  refine ⟨fun v => rfl, fun s v h => ?_, fun s h => ?_⟩ <;>
    simp [executeFunction, h]

/-- Witness for C5 with the concrete parser `sampleParse`: the empty
object text delegates to `callTool`, malformed text fails with
`ArgumentParseError`. -/
theorem executeFunction_spec_witness :
    (executeFunction sampleParse sampleState "Topic" (.obj (.obj [])) okNet =
      callTool sampleState "Topic" (.obj []) okNet) ∧
    (sampleParse "\x7b\x7d" = some (.obj []) ∧
      executeFunction sampleParse sampleState "Topic" (.str "\x7b\x7d") okNet =
        callTool sampleState "Topic" (.obj []) okNet) ∧
    (sampleParse "\x7bbad json" = none ∧
      executeFunction sampleParse sampleState "Topic" (.str "\x7bbad json") okNet =
        (.error .argumentParseError, false)) :=
  ⟨(executeFunction_spec sampleParse sampleState "Topic" okNet).1 (.obj []),
   ⟨rfl,
    (executeFunction_spec sampleParse sampleState "Topic" okNet).2.1
      "\x7b\x7d" (.obj []) rfl⟩,
   ⟨rfl,
    (executeFunction_spec sampleParse sampleState "Topic" okNet).2.2
      "\x7bbad json" rfl⟩⟩

/-- C9 (implicit): `executeFunction` parses a string argument before the
connected-state guard runs — on a disconnected session a string the
parser rejects fails with `ArgumentParseError`, not `NotConnected`; the
`NotConnected` guard is reached only for strings that parse successfully
or for already-parsed mappings. -/
theorem executeFunction_parse_before_guard (parse : String → Option JsonValue)
    (st : LunarCrushMCP) (name : String) (s : String)
    (net : JsonValue → Except String MCPToolResult)
    (hdis : isConnected st = false) :
    (parse s = none →
      executeFunction parse st name (.str s) net =
        (.error .argumentParseError, false)) ∧
    (∀ v, parse s = some v →
      (executeFunction parse st name (.str s) net).1 = .error .notConnected) ∧
    (∀ v, (executeFunction parse st name (.obj v) net).1 = .error .notConnected) := by
  have hguard : ensureConnected st = .error .notConnected := by
    unfold isConnected at hdis
    unfold ensureConnected
    rcases Bool.and_eq_false_iff.mp hdis with h | h <;> simp [h]
  refine ⟨fun h => by simp [executeFunction, h], fun v h => ?_, fun v => ?_⟩
  · simp [executeFunction, callTool, hguard, h]
  · simp [executeFunction, callTool, hguard]

/-- Witness for C9 on a disconnected fresh session: malformed text gives
the parse error, well-formed text and a mapping give `NotConnected`. -/
theorem executeFunction_parse_before_guard_witness :
    isConnected freshState = false ∧
    (executeFunction sampleParse freshState "Topic" (.str "\x7bbad json") okNet =
      (.error .argumentParseError, false)) ∧
    ((executeFunction sampleParse freshState "Topic" (.str "\x7b\x7d") okNet).1 =
      .error .notConnected) ∧
    ((executeFunction sampleParse freshState "Topic" (.obj (.obj [])) okNet).1 =
      .error .notConnected) :=
  ⟨rfl,
   (executeFunction_parse_before_guard sampleParse freshState "Topic"
      "\x7bbad json" okNet rfl).1 rfl,
   (executeFunction_parse_before_guard sampleParse freshState "Topic"
      "\x7b\x7d" okNet rfl).2.1 (.obj []) rfl,
   (executeFunction_parse_before_guard sampleParse freshState "Topic"
      "anything" okNet rfl).2.2 (.obj [])⟩

/-- Mapping over an index-paired list, read positionally: the element at
position `i` is the image of the original element at `i` paired with its
index. -/
theorem enumFrom_map_getElem? {α β : Type} (f : Nat × α → β) (l : List α)
    (n i : Nat) :
    ((l.enumFrom n).map f)[i]? = (l[i]?).map fun a => f (n + i, a) := by
  induction l generalizing n i with
  | nil => simp
  | cons a l ih =>
      cases i with
      | zero => simp [List.enumFrom]
      | succ j =>
          have harith : n + 1 + j = n + (j + 1) := by omega
          simp only [List.enumFrom, List.map_cons, List.getElem?_cons_succ]
          rw [ih, harith]

/-- C4: on a connected session `callTools` never raises: it returns a
record list of the same length as the request list, whose i-th record is
the independent settlement of the i-th request alone under its own
network outcome (so one request's failure cannot raise to the caller or
change any other record), each record naming that request's tool and
being either a success `{tool, result}` or a failure `{tool, error}`. -/
theorem callTools_spec (st : LunarCrushMCP) (calls : List BatchCall)
    (net : Nat → JsonValue → Except String MCPToolResult)
    (hconn : isConnected st = true) :
    ∃ recs : List BatchRecord,
      callTools st calls net = .ok recs ∧
      recs.length = calls.length ∧
      (∀ i : Nat, recs[i]? = (calls[i]?).map fun c => settleCall st c (net i)) ∧
      (∀ i : Nat, ∀ c : BatchCall, calls[i]? = some c →
        (settleCall st c (net i)).tool = c.name ∧
        ((∃ r, settleCall st c (net i) = .success c.name r) ∨
         (∃ e, settleCall st c (net i) = .failure c.name e))) := by
  have hok : ensureConnected st = .ok () := by
    unfold isConnected at hconn
    obtain ⟨h1, h2⟩ := (Bool.and_eq_true _ _).mp hconn
    simp [ensureConnected, h1, h2]
  refine ⟨calls.enum.map fun p => settleCall st p.2 (net p.1), ?_, ?_, ?_, ?_⟩
  · simp [callTools, hok]
  · simp [List.enum]
  · intro i
    have h := enumFrom_map_getElem?
      (fun p => settleCall st p.2 (net p.1)) calls 0 i
    simpa [List.enum] using h
  · intro i c _
    refine ⟨?_, ?_⟩
    · cases h : (callTool st c.name (c.args.getD (.obj [])) (net i)).1 <;>
        simp [settleCall, BatchRecord.tool, h]
    · cases h : (callTool st c.name (c.args.getD (.obj [])) (net i)).1 with
      | ok r => exact .inl ⟨r, by simp [settleCall, h]⟩
      | error e =>
          exact .inr ⟨if e.message = "" then "Unknown error" else e.message,
            by simp [settleCall, h]⟩

/-- Witness for C4 at the connected sample session with one known and one
unknown tool in the batch. -/
theorem callTools_spec_witness :
    isConnected sampleState = true ∧
    (∃ recs : List BatchRecord,
      callTools sampleState [⟨"Topic", none⟩, ⟨"Nope", none⟩]
        (fun _ => okNet) = .ok recs ∧
      recs.length = ([⟨"Topic", none⟩, ⟨"Nope", none⟩] : List BatchCall).length ∧
      (∀ i : Nat, recs[i]? =
        ((([⟨"Topic", none⟩, ⟨"Nope", none⟩] : List BatchCall))[i]?).map
          fun c => settleCall sampleState c okNet) ∧
      (∀ i : Nat, ∀ c : BatchCall,
        (([⟨"Topic", none⟩, ⟨"Nope", none⟩] : List BatchCall))[i]? = some c →
        (settleCall sampleState c okNet).tool = c.name ∧
        ((∃ r, settleCall sampleState c okNet = .success c.name r) ∨
         (∃ e, settleCall sampleState c okNet = .failure c.name e)))) :=
  ⟨rfl, callTools_spec sampleState [⟨"Topic", none⟩, ⟨"Nope", none⟩]
    (fun _ => okNet) rfl⟩

/-- C10 (implicit): a failed `connect()` leaves a residual non-null
client handle — concretely, after a fresh session's handshake fails the
client handle is set, the connected flag and `isConnected()` are false,
and yet `refreshTools()` passes its `NotInitialized` guard and populates
the tool cache; conversely, in every reachable session state the
connected flag implies a non-null client handle, so `isConnected()`
always equals the connected flag. -/
theorem residual_client_and_connected_invariant :
    ((connect freshState (.ok ()) (.error "handshake failed") (.ok [])).1 =
       .error (.connectionError "handshake failed") ∧
     (connect freshState (.ok ()) (.error "handshake failed") (.ok [])).2.client
       = true ∧
     (connect freshState (.ok ()) (.error "handshake failed") (.ok [])).2.connected
       = false ∧
     isConnected
       (connect freshState (.ok ()) (.error "handshake failed") (.ok [])).2
       = false ∧
     (refreshTools
        (connect freshState (.ok ()) (.error "handshake failed") (.ok [])).2
        (.ok [sampleTool])).1 = .ok [sampleTool] ∧
     (refreshTools
        (connect freshState (.ok ()) (.error "handshake failed") (.ok [])).2
        (.ok [sampleTool])).2.tools = [sampleTool] ∧
     isConnected
       (refreshTools
          (connect freshState (.ok ()) (.error "handshake failed") (.ok [])).2
          (.ok [sampleTool])).2 = false) ∧
    (∀ st : LunarCrushMCP, Reachable st →
      (st.connected = true → st.client = true) ∧
      isConnected st = st.connected) := by
  constructor
  · exact ⟨rfl, rfl, rfl, rfl, rfl, rfl, rfl⟩
  · intro st h
    have key : st.connected = true → st.client = true := by
      induction h with
      | init k st h =>
          intro hco
          exfalso
          cases k with
          | none => simp [construct] at h
          | some s =>
              by_cases ht : jsTrim s = ""
              · simp [construct, ht] at h
              · simp [construct, ht] at h
                rw [← h] at hco
                simp at hco
      | connectStep st setup handshake fetch h ih =>
          cases setup with
          | error es => simpa [connect] using ih
          | ok u =>
              cases handshake with
              | error eh => intro hco; simp [connect]
              | ok v =>
                  cases fetch with
                  | ok ts => intro hco; simp [connect, refreshTools]
                  | error ef => intro hco; simp [connect, refreshTools]
      | refreshStep st fetch h ih =>
          by_cases hc : st.client = false
          · simpa [refreshTools, hc] using ih
          · cases fetch with
            | ok ts =>
                intro hco
                have hcl : st.client = true := by
                  cases hcb : st.client
                  · exact absurd hcb hc
                  · rfl
                simp [refreshTools, hcl]
            | error ef =>
                intro hco
                simp only [refreshTools, hc, if_false] at hco ⊢
                exact ih hco
      | disconnectStep st close h ih =>
          intro hco
          simp [disconnect] at hco
    refine ⟨key, ?_⟩
    unfold isConnected
    cases hco : st.connected with
    | false => simp
    | true => simp [key hco]

/-- Witness for C10: the state after the failed handshake above is
reachable, and on it the theorem gives `isConnected = connected`. -/
theorem residual_client_and_connected_invariant_witness :
    isConnected (connect freshState (.ok ()) (.error "handshake failed") (.ok [])).2 =
      (connect freshState (.ok ()) (.error "handshake failed") (.ok [])).2.connected :=
  (residual_client_and_connected_invariant.2
    (connect freshState (.ok ()) (.error "handshake failed") (.ok [])).2
    (Reachable.connectStep freshState (.ok ()) (.error "handshake failed") (.ok [])
      (Reachable.init (some "key") freshState rfl))).2
